import Mathlib

/-!
Shallow embedding of the nuclear-receptor / cofactor complex classifier
(`classifier.py`, class `NRCofactorClassifier`).

Modelling conventions:
-  Python strings are `List Char`; `k in s` (substring test) is `subB k s`;
   `str.lower()` is `lower` (the inputs of interest are ASCII, where
   `Char.toLower` agrees with Python).
-  Python floats are exact rationals `ℚ`.  Every score in the program is a
   clamped sum of the constants 1, 0.8, 0.5, halved or averaged, so no
   reachable comparison against the thresholds 0.5 / 0.3 is decided by
   floating-point rounding; the exact-rational model is decision-equivalent.
-  `re.search("L..LL", seq)` is `hasLXXLL`: an occurrence of L, two
   arbitrary non-newline characters, L, L (Python "." does not match a
   newline).
-  The loaded JSON record (`load_pdb_data` result) is `Option PDBData`:
   `none` is a missing file; a present dict keeps just the observations the
   program makes of it: whether the dict is truthy (non-empty), the truthy
   value of its "entry" -> "polymer_entities" list, and the per-entity
   fields read by `extract_chain_info` (absent optional fields are already
   collapsed to their defaults, exactly as `.get(..., default)` does).
-/

namespace NRClassifier

/-- Lowercase a character list, mirroring Python str.lower on ASCII text. -/
def lower (s : List Char) : List Char := s.map Char.toLower

/-- Decide whether the first list is a leading segment of the second. -/
def prefB : List Char → List Char → Bool
  | [], _ => true
  | _ :: _, [] => false
  | a :: n, b :: h => a == b && prefB n h

/-- Decide whether `n` occurs contiguously inside the second list; this is
the Python substring test `n in h`. -/
def subB (n : List Char) : List Char → Bool
  | [] => prefB n []
  | b :: h => prefB n (b :: h) || subB n h

/-- Occurrence test for the regular pattern "L..LL" used by
`re.search` on the amino-acid sequence: leucine, two arbitrary non-newline
residues, leucine, leucine, anywhere in the list. -/
def hasLXXLL : List Char → Bool
  | a :: b :: c :: d :: e :: rest =>
      (a == 'L' && !(b == '\n') && !(c == '\n') && d == 'L' && e == 'L') ||
        hasLXXLL (b :: c :: d :: e :: rest)
  | _ => false

/-- Field `self.nr_keywords` of the classifier (the source lists
"thyroid hormone receptor" twice; the duplicate is kept). -/
def nr_keywords : List String :=
  ["nuclear receptor", "steroid receptor", "thyroid hormone receptor",
   "estrogen receptor", "androgen receptor", "glucocorticoid receptor",
   "mineralocorticoid receptor", "progesterone receptor",
   "peroxisome proliferator-activated receptor", "ppar",
   "retinoic acid receptor", "retinoid x receptor", "rar", "rxr",
   "liver x receptor", "lxr", "farnesoid x receptor", "fxr",
   "vitamin d receptor", "vdr", "thyroid hormone receptor", "tr",
   "hepatocyte nuclear factor", "hnf", "coup-tf", "nr2f",
   "testicular receptor", "tr2", "tr4", "tailless", "tlx",
   "photoreceptor cell-specific nuclear receptor", "pnr",
   "dosage-sensitive sex reversal", "dax1", "short heterodimer partner", "shp"]

/-- Field `self.coactivator_keywords` of the classifier. -/
def coactivator_keywords : List String :=
  ["steroid receptor coactivator", "src-1", "src-2", "src-3", "src1", "src2", "src3",
   "nuclear receptor coactivator", "ncoa1", "ncoa2", "ncoa3", "grip1", "tif2", "actr",
   "creb-binding protein", "cbp", "p300", "ep300",
   "peroxisome proliferator-activated receptor gamma coactivator", "pgc-1", "pgc1",
   "pgc-1alpha", "pgc-1beta", "pgc1a", "pgc1b",
   "mediator", "trap", "drip", "arc", "activator",
   "transcriptional intermediary factor", "receptor-associated protein"]

/-- Field `self.corepressor_keywords` of the classifier. -/
def corepressor_keywords : List String :=
  ["nuclear receptor corepressor", "ncor", "smrt", "cornr",
   "silencing mediator", "corepressor", "repressor",
   "alien", "trip15", "csx", "hairless"]

/-- One keyword step of the `score_nuclear_receptor` loop: on a match add
weight 1.0 for the two generic terms, 0.8 otherwise, and append the reason. -/
def nrStep (dl : List Char) (acc : ℚ × List String) (keyword : String) : ℚ × List String :=
  if subB keyword.data dl then
    if keyword == "nuclear receptor" || keyword == "steroid receptor" then
      (acc.1 + 1, acc.2 ++ ["Generic NR term: " ++ keyword])
    else
      (acc.1 + 4/5, acc.2 ++ ["Specific NR: " ++ keyword])
  else acc

/-- Method `score_nuclear_receptor`: keyword loop over the lowercased
description, then the sum is clamped to a maximum of 1. -/
def score_nuclear_receptor (description : List Char) : ℚ × List String :=
  let r := nr_keywords.foldl (nrStep (lower description)) (0, [])
  (min r.1 1, r.2)

/-- One keyword step of a `score_cofactor` keyword loop: on a match add 0.8
and append the labelled reason. -/
def cofStep (label : String) (dl : List Char) (acc : ℚ × List String) (keyword : String) :
    ℚ × List String :=
  if subB keyword.data dl then (acc.1 + 4/5, acc.2 ++ [label ++ keyword]) else acc

/-- The coactivator keyword loop of `score_cofactor` (running score and
reasons contributed by `coactivator_keywords`). -/
def coactPart (dl : List Char) : ℚ × List String :=
  coactivator_keywords.foldl (cofStep "Coactivator keyword: " dl) (0, [])

/-- The corepressor keyword loop of `score_cofactor` (running score and
reasons contributed by `corepressor_keywords`). -/
def corepPart (dl : List Char) : ℚ × List String :=
  corepressor_keywords.foldl (cofStep "Corepressor keyword: " dl) (0, [])

/-- The guard `if sequence and re.search("L..LL", sequence)` of
`score_cofactor`: the sequence is non-empty (truthy) and contains the motif. -/
def motifHit (sequence : List Char) : Bool := !sequence.isEmpty && hasLXXLL sequence

/-- The reason string appended on a motif hit (its wording says
"Corepressor" although the 0.5 is added to the coactivator score; this is
the mislabeling noted in the source). -/
def motifReason : String := "Corepressor sequence motif \x27LXXLL\x27 found"

/-- The coactivator running total of `score_cofactor` just before the
subtype decision: keyword total plus 0.5 on a motif hit. -/
def coactRunning (description sequence : List Char) : ℚ :=
  (coactPart (lower description)).1 + (if motifHit sequence then 1/2 else 0)

/-- The corepressor running total of `score_cofactor` just before the
subtype decision; the motif branch never touches it, so it does not depend
on the sequence. -/
def corepRunning (description : List Char) : ℚ := (corepPart (lower description)).1

/-- The reasons list accumulated by `score_cofactor`, in source order:
coactivator keyword reasons, corepressor keyword reasons, then the motif
reason if the motif guard fired. -/
def cofactorReasons (description sequence : List Char) : List String :=
  (coactPart (lower description)).2 ++ (corepPart (lower description)).2 ++
    (if motifHit sequence then [motifReason] else [])

/-- Method `score_cofactor`: returns (clamped score, subtype, reasons) from
the two running totals, with the source tie-break (equal positive totals
fall through to the corepressor branch). -/
def score_cofactor (description sequence : List Char) : ℚ × String × List String :=
  if coactRunning description sequence > corepRunning description then
    (min (coactRunning description sequence) 1, "coactivator", cofactorReasons description sequence)
  else if corepRunning description > 0 then
    (min (corepRunning description) 1, "corepressor", cofactorReasons description sequence)
  else
    (0, "unknown", cofactorReasons description sequence)

/-- Dataclass `ChainInfo`; description and entity type are stored already
lowercased, as `extract_chain_info` produces them. -/
structure ChainInfo where
  chain_id : String
  description : List Char
  entity_type : List Char
  entity_sequence : List Char
deriving DecidableEq, Repr

/-- Dataclass `ClassificationResult`. -/
structure ClassificationResult where
  pdb_id : String
  is_nr_cofactor_complex : Bool
  receptor_chain : Option String
  cofactor_chain : Option String
  receptor_type : Option (List Char)
  cofactor_type : Option String
  confidence_score : ℚ
  reasons : List String
deriving DecidableEq, Repr

/-- One polymer entity of the loaded record, holding exactly the fields
`extract_chain_info` reads, with the `.get` defaults already applied:
the auth_asym_ids list, the description, the polymer type and the
one-letter sequence (absent fields are the empty list / empty string). -/
structure Entity where
  auth_asym_ids : List String
  pdbx_description : String
  entity_poly_type : String
  pdbx_seq_one_letter_code_can : String
deriving DecidableEq, Repr

/-- A present (loaded) JSON record, reduced to what the program observes of
the dict: `entryPresent` and `otherKeys` determine Python dict truthiness
(a dict is truthy iff it has at least one key); `entry` is the truthy value
of `data.get("entry").get("polymer_entities")`, with `none` covering an
absent or falsy "entry" value (both guards of `extract_chain_info` return
the empty chain list in exactly those cases). -/
structure PDBData where
  entryPresent : Bool
  entry : Option (List Entity)
  otherKeys : Bool
deriving DecidableEq, Repr

/-- Python truthiness of the record dict: non-empty iff some key exists. -/
def PDBData.truthy (d : PDBData) : Bool := d.entryPresent || d.otherKeys

/-- Method `extract_chain_info`: one `ChainInfo` per auth_asym_id of every
entity (entities with an empty id list are skipped), description and type
lowercased, sequence kept verbatim. -/
def extract_chain_info (data : PDBData) : List ChainInfo :=
  match data.entry with
  | none => []
  | some entities =>
    entities.foldl (fun chains entity =>
      if entity.auth_asym_ids.isEmpty then chains
      else chains ++ entity.auth_asym_ids.map (fun cid =>
        { chain_id := cid,
          description := lower entity.pdbx_description.data,
          entity_type := lower entity.entity_poly_type.data,
          entity_sequence := entity.pdbx_seq_one_letter_code_can.data })) []

/-- The `best_pair` dict of `classify_complex`.  The "cofactor_type" key is
absent from the initial dict and read with `.get`, hence an `Option`. -/
structure BestPair where
  receptor : Option ChainInfo
  cofactor : Option ChainInfo
  nr_score : ℚ
  cofactor_score : ℚ
  confidence : ℚ
  nr_reasons : List String
  cofactor_reasons : List String
  cofactor_type : Option String
deriving DecidableEq, Repr

/-- The initial `best_pair` value of `classify_complex`. -/
def initBest : BestPair :=
  { receptor := none, cofactor := none, nr_score := 0, cofactor_score := 0,
    confidence := 0, nr_reasons := [], cofactor_reasons := [], cofactor_type := none }

/-- The penalized receptor score of an ordered pair (receptor candidate on
the left, cofactor candidate on the right): nuclear-receptor score minus
half of the receptor candidate own cofactor score. -/
def pairNrScore (pq : (Nat × ChainInfo) × (Nat × ChainInfo)) : ℚ :=
  (score_nuclear_receptor pq.1.2.description).1 -
    (score_cofactor pq.1.2.description pq.1.2.entity_sequence).1 * (1/2)

/-- The cofactor score of the right (cofactor candidate) chain of a pair. -/
def pairCofScore (pq : (Nat × ChainInfo) × (Nat × ChainInfo)) : ℚ :=
  (score_cofactor pq.2.2.description pq.2.2.entity_sequence).1

/-- The confidence of a pair: the average of the penalized receptor score
and the cofactor score. -/
def pairConfidence (pq : (Nat × ChainInfo) × (Nat × ChainInfo)) : ℚ :=
  (pairNrScore pq + pairCofScore pq) / 2

/-- The `best_pair` update value built inside the loop of
`classify_complex` for one ordered pair. -/
def candidateOf (pq : (Nat × ChainInfo) × (Nat × ChainInfo)) : BestPair :=
  { receptor := some pq.1.2, cofactor := some pq.2.2,
    nr_score := pairNrScore pq,
    cofactor_score := pairCofScore pq,
    confidence := pairConfidence pq,
    nr_reasons := (score_nuclear_receptor pq.1.2.description).2,
    cofactor_reasons := (score_cofactor pq.2.2.description pq.2.2.entity_sequence).2.2,
    cofactor_type := some (score_cofactor pq.2.2.description pq.2.2.entity_sequence).2.1 }

/-- One iteration of the double loop of `classify_complex`: skip the
diagonal (`i == j`), otherwise replace the best pair when the confidence
strictly exceeds the current best confidence. -/
def stepPair (best : BestPair) (pq : (Nat × ChainInfo) × (Nat × ChainInfo)) : BestPair :=
  if pq.1.1 = pq.2.1 then best
  else if best.confidence < pairConfidence pq then candidateOf pq
  else best

/-- All ordered index pairs scanned by the double loop
`for i in range(n): for j in range(n)`, in scan order, with the chains
attached to their indices. -/
def pairList (chains : List ChainInfo) : List ((Nat × ChainInfo) × (Nat × ChainInfo)) :=
  chains.enum.flatMap (fun p => chains.enum.map (fun q => (p, q)))

/-- The pairs of `pairList` that pass the `i == j` skip. -/
def validPairs (chains : List ChainInfo) : List ((Nat × ChainInfo) × (Nat × ChainInfo)) :=
  (pairList chains).filter (fun pq => decide (pq.1.1 ≠ pq.2.1))

/-- The `best_pair` value after the full double loop of `classify_complex`. -/
def bestPairOf (chains : List ChainInfo) : BestPair :=
  (pairList chains).foldl stepPair initBest

/-- Two decimal digits with a leading zero, for `format2`. -/
def pad2 (n : Nat) : String := (if n < 10 then "0" else "") ++ toString n

/-- Rendering of a score with two decimal places, the counterpart of the
Python format specifier ".2f" (every formatted score in the program is an
integer multiple of 1/20, so no half-way rounding case is reachable). -/
def format2 (q : ℚ) : String :=
  let n : Int := round (q * 100)
  if n < 0 then "-" ++ toString (n.natAbs / 100) ++ "." ++ pad2 (n.natAbs % 100)
  else toString (n.natAbs / 100) ++ "." ++ pad2 (n.natAbs % 100)

/-- Method `classify_complex`, from the point where the loaded record is in
hand (`load_pdb_data` is file I/O and is represented by the
`Option PDBData` argument: `none` is a missing file).  `if not data` is
true when the file was missing or the loaded dict is falsy (empty). -/
def classify_complex (pdb_id : String) (data : Option PDBData) : ClassificationResult :=
  match data with
  | none =>
    { pdb_id := pdb_id, is_nr_cofactor_complex := false, confidence_score := 0,
      reasons := ["Data not available"], receptor_chain := none, cofactor_chain := none,
      receptor_type := none, cofactor_type := none }
  | some d =>
    if !d.truthy then
      { pdb_id := pdb_id, is_nr_cofactor_complex := false, confidence_score := 0,
        reasons := ["Data not available"], receptor_chain := none, cofactor_chain := none,
        receptor_type := none, cofactor_type := none }
    else
      let chains := extract_chain_info d
      if chains.length < 2 then
        { pdb_id := pdb_id, is_nr_cofactor_complex := false, confidence_score := 0,
          reasons := ["Insufficient number of chains"], receptor_chain := none,
          cofactor_chain := none, receptor_type := none, cofactor_type := none }
      else
        let best := bestPairOf chains
        let is_complex : Bool := decide ((1:ℚ)/2 ≤ best.nr_score ∧ (3:ℚ)/10 ≤ best.cofactor_score)
        let rRs : List String :=
          match best.receptor with
          | some rc => best.nr_reasons.map (fun r => "Receptor (" ++ rc.chain_id ++ "): " ++ r)
          | none => []
        let cRs : List String :=
          match best.cofactor with
          | some cc => best.cofactor_reasons.map (fun r => "Cofactor (" ++ cc.chain_id ++ "): " ++ r)
          | none => []
        let failRs : List String :=
          if !is_complex && decide ((0:ℚ) < best.confidence) then
            ["Failed threshold check: NR_score(" ++ format2 best.nr_score ++
              ") >= 0.5, Cofactor_score(" ++ format2 best.cofactor_score ++ ") >= 0.3"]
          else []
        { pdb_id := pdb_id,
          is_nr_cofactor_complex := is_complex,
          receptor_chain := best.receptor.map ChainInfo.chain_id,
          cofactor_chain := best.cofactor.map ChainInfo.chain_id,
          receptor_type := best.receptor.map ChainInfo.description,
          cofactor_type := if best.cofactor.isSome then best.cofactor_type else none,
          confidence_score := best.confidence,
          reasons := rRs ++ cRs ++ failRs }

/-- Concrete record with two chains: chain A described "TR" (a specific
nuclear-receptor keyword), chain B described "CBP" (a coactivator keyword). -/
def exDataComplex : PDBData :=
  ⟨true, some [⟨["A"], "TR", "polymer", ""⟩, ⟨["B"], "CBP", "polymer", ""⟩], false⟩

/-- Concrete record with a single chain. -/
def exDataOne : PDBData := ⟨true, some [⟨["A"], "x", "", ""⟩], false⟩

/-- Concrete loaded-but-empty record: the empty dict (no keys), which is
falsy in Python. -/
def exDataEmptyDict : PDBData := ⟨false, none, false⟩

/-- Concrete record with two chains whose descriptions and sequences carry
no evidence at all. -/
def exDataNoKw : PDBData :=
  ⟨true, some [⟨["A"], "", "", ""⟩, ⟨["B"], "", "", ""⟩], false⟩

/-! Shared helper lemmas about the branches of `classify_complex`. -/

/-- A present but falsy (empty) record dict takes the data-unavailable path. -/
theorem classify_unavailable_of_falsy (pdb : String) (d : PDBData) (h : d.truthy = false) :
    classify_complex pdb (some d) =
      { pdb_id := pdb, is_nr_cofactor_complex := false, receptor_chain := none,
        cofactor_chain := none, receptor_type := none, cofactor_type := none,
        confidence_score := 0, reasons := ["Data not available"] } := by
  simp [classify_complex, h]

/-- Fewer than two extracted chains takes the insufficient-chains path. -/
theorem classify_insufficient (pdb : String) (d : PDBData) (h1 : d.truthy = true)
    (h2 : (extract_chain_info d).length < 2) :
    classify_complex pdb (some d) =
      { pdb_id := pdb, is_nr_cofactor_complex := false, receptor_chain := none,
        cofactor_chain := none, receptor_type := none, cofactor_type := none,
        confidence_score := 0, reasons := ["Insufficient number of chains"] } := by
  simp [classify_complex, h1, h2]

/-- On the main path, the verdict is the conjunction of the two threshold
tests on the best pair. -/
theorem classify_main_flag (pdb : String) (d : PDBData) (h1 : d.truthy = true)
    (h2 : ¬ (extract_chain_info d).length < 2) :
    ((classify_complex pdb (some d)).is_nr_cofactor_complex = true ↔
      ((1:ℚ)/2 ≤ (bestPairOf (extract_chain_info d)).nr_score ∧
        (3:ℚ)/10 ≤ (bestPairOf (extract_chain_info d)).cofactor_score)) := by
  simp [classify_complex, h1, h2]

/-- On the main path, the reported receptor chain id comes from the best
pair. -/
theorem classify_main_receptor (pdb : String) (d : PDBData) (h1 : d.truthy = true)
    (h2 : ¬ (extract_chain_info d).length < 2) :
    (classify_complex pdb (some d)).receptor_chain =
      (bestPairOf (extract_chain_info d)).receptor.map ChainInfo.chain_id := by
  simp [classify_complex, h1, h2]

/-- On the main path, the reported cofactor chain id comes from the best
pair. -/
theorem classify_main_cofactor (pdb : String) (d : PDBData) (h1 : d.truthy = true)
    (h2 : ¬ (extract_chain_info d).length < 2) :
    (classify_complex pdb (some d)).cofactor_chain =
      (bestPairOf (extract_chain_info d)).cofactor.map ChainInfo.chain_id := by
  simp [classify_complex, h1, h2]

/-- C1: for every record that is present, truthy and yields at least two
extracted chains, the verdict `is_nr_cofactor_complex` holds exactly when
the best pairs penalized receptor score is at least 0.5 and its cofactor
score is at least 0.3. -/
theorem classify_flag_thresholds (pdb : String) (d : PDBData) (h1 : d.truthy = true)
    (h2 : 2 ≤ (extract_chain_info d).length) :
    ((classify_complex pdb (some d)).is_nr_cofactor_complex = true ↔
      ((1:ℚ)/2 ≤ (bestPairOf (extract_chain_info d)).nr_score ∧
        (3:ℚ)/10 ≤ (bestPairOf (extract_chain_info d)).cofactor_score)) :=
  classify_main_flag pdb d h1 (by omega)

/-- Witness for C1 at a concrete two-chain record. -/
theorem classify_flag_thresholds_wit :
    ((classify_complex "X" (some exDataComplex)).is_nr_cofactor_complex = true ↔
      ((1:ℚ)/2 ≤ (bestPairOf (extract_chain_info exDataComplex)).nr_score ∧
        (3:ℚ)/10 ≤ (bestPairOf (extract_chain_info exDataComplex)).cofactor_score)) :=
  classify_flag_thresholds "X" exDataComplex (by decide) (by decide)

/-- C9: a truthy record that yields fewer than two chains produces the
fixed insufficient-chains result: verdict false, confidence 0, the single
fixed reason, all optional fields null. -/
theorem insufficient_chains_result (pdb : String) (d : PDBData) (h1 : d.truthy = true)
    (h2 : (extract_chain_info d).length < 2) :
    classify_complex pdb (some d) =
      { pdb_id := pdb, is_nr_cofactor_complex := false, receptor_chain := none,
        cofactor_chain := none, receptor_type := none, cofactor_type := none,
        confidence_score := 0, reasons := ["Insufficient number of chains"] } :=
  classify_insufficient pdb d h1 h2

/-- Witness for C9 at a concrete one-chain record. -/
theorem insufficient_chains_result_wit :
    classify_complex "Y" (some exDataOne) =
      { pdb_id := "Y", is_nr_cofactor_complex := false, receptor_chain := none,
        cofactor_chain := none, receptor_type := none, cofactor_type := none,
        confidence_score := 0, reasons := ["Insufficient number of chains"] } :=
  insufficient_chains_result "Y" exDataOne (by decide) (by decide)

/-- C10: a loaded record value that is falsy (an empty dict) takes the
data-unavailable path, not the insufficient-chains path: verdict false,
confidence 0, reason "Data not available", all optional fields null. -/
theorem falsy_record_unavailable (pdb : String) (d : PDBData) (h : d.truthy = false) :
    classify_complex pdb (some d) =
      { pdb_id := pdb, is_nr_cofactor_complex := false, receptor_chain := none,
        cofactor_chain := none, receptor_type := none, cofactor_type := none,
        confidence_score := 0, reasons := ["Data not available"] } :=
  classify_unavailable_of_falsy pdb d h

/-- Witness for C10 at the concrete empty dict. -/
theorem falsy_record_unavailable_wit :
    classify_complex "Z" (some exDataEmptyDict) =
      { pdb_id := "Z", is_nr_cofactor_complex := false, receptor_chain := none,
        cofactor_chain := none, receptor_type := none, cofactor_type := none,
        confidence_score := 0, reasons := ["Data not available"] } :=
  falsy_record_unavailable "Z" exDataEmptyDict (by decide)

/-- C3 counterexample: on the description "steroid receptor coactivator"
with an empty sequence the cofactor score is not 0.8, because the keyword
"activator" also matches inside "coactivator" and the two 0.8
contributions clamp to 1. -/
theorem cofactor_src_coactivator_cex :
    ¬ (score_cofactor "steroid receptor coactivator".data []).1 = 4/5 := by
  with_unfolding_all decide

/-- C3 (amended): the description "steroid receptor coactivator" with an
empty sequence scores 1.0 with subtype "coactivator" and two keyword
reasons; adding the sequence "MKLLELLAS" keeps the clamped score at 1.0
and appends exactly one motif reason. -/
theorem cofactor_src_coactivator_scores :
    score_cofactor "steroid receptor coactivator".data [] =
      (1, "coactivator",
        ["Coactivator keyword: steroid receptor coactivator",
         "Coactivator keyword: activator"]) ∧
    score_cofactor "steroid receptor coactivator".data "MKLLELLAS".data =
      (1, "coactivator",
        ["Coactivator keyword: steroid receptor coactivator",
         "Coactivator keyword: activator", motifReason]) := by
  with_unfolding_all decide

/-- C4 counterexample: on the description "estrogen receptor" the
nuclear-receptor scorer does not return 0.8 with a single reason, because
the keyword "tr" also matches inside "estrogen". -/
theorem nr_estrogen_cex :
    ¬ ((score_nuclear_receptor "estrogen receptor".data).1 = 4/5 ∧
      (score_nuclear_receptor "estrogen receptor".data).2.length = 1) := by
  with_unfolding_all decide

/-- C4 (amended): the description "estrogen receptor" scores 1.0 (two
specific-keyword matches, "estrogen receptor" and the embedded "tr",
clamped from 1.6) with exactly two reasons. -/
theorem nr_estrogen_score :
    score_nuclear_receptor "estrogen receptor".data =
      (1, ["Specific NR: estrogen receptor", "Specific NR: tr"]) := by
  with_unfolding_all decide

/-- The reasons component of `score_cofactor` is the accumulated reasons
list, whichever subtype branch is taken. -/
theorem score_cofactor_reasons (desc seq : List Char) :
    (score_cofactor desc seq).2.2 = cofactorReasons desc seq := by
  unfold score_cofactor
  split
  · rfl
  · split <;> rfl

/-- C5: a non-empty sequence containing the pattern L..LL adds exactly 0.5
to the coactivator running total (the corepressor running total takes no
sequence input at all) and appends exactly one motif reason to the output
reasons, independently of the description. -/
theorem motif_adds_half_coactivator (desc seq : List Char) (h1 : seq ≠ [])
    (h2 : hasLXXLL seq = true) :
    coactRunning desc seq = coactRunning desc [] + 1/2 ∧
    corepRunning desc = (corepPart (lower desc)).1 ∧
    (score_cofactor desc seq).2.2 = (score_cofactor desc []).2.2 ++ [motifReason] := by
  have hm : motifHit seq = true := by
    simp [motifHit, h2, List.isEmpty_iff, h1]
  have hm0 : motifHit ([] : List Char) = false := rfl
  refine ⟨?_, rfl, ?_⟩
  · simp [coactRunning, hm, hm0]
  · rw [score_cofactor_reasons, score_cofactor_reasons]
    simp [cofactorReasons, hm, hm0]

/-- Witness for C5 at the empty description and the sequence "LAALL". -/
theorem motif_adds_half_coactivator_wit :
    coactRunning [] "LAALL".data = coactRunning [] [] + 1/2 ∧
    corepRunning [] = (corepPart (lower [])).1 ∧
    (score_cofactor [] "LAALL".data).2.2 = (score_cofactor [] []).2.2 ++ [motifReason] :=
  motif_adds_half_coactivator [] "LAALL".data (by decide) (by decide)

/-- C6: when the coactivator and corepressor running totals are equal and
strictly positive, `score_cofactor` returns the corepressor branch: the
clamped corepressor total with subtype "corepressor". -/
theorem tie_resolves_corepressor (desc seq : List Char)
    (h1 : coactRunning desc seq = corepRunning desc) (h2 : 0 < corepRunning desc) :
    score_cofactor desc seq =
      (min (corepRunning desc) 1, "corepressor", cofactorReasons desc seq) := by
  unfold score_cofactor
  rw [h1]
  simp [gt_iff_lt, lt_irrefl, h2]

/-- Witness for C6 at the description "activator repressor" (one keyword
from each list, totals 0.8 each) with an empty sequence. -/
theorem tie_resolves_corepressor_wit :
    score_cofactor "activator repressor".data [] =
      (min (corepRunning "activator repressor".data) 1, "corepressor",
        cofactorReasons "activator repressor".data []) :=
  tie_resolves_corepressor "activator repressor".data []
    (by with_unfolding_all decide) (by with_unfolding_all decide)

/-- A keyword fold of the nuclear-receptor scorer leaves its accumulator
unchanged when no keyword matches. -/
theorem foldl_nrStep_of_no_match (dl : List Char) (ks : List String) (acc : ℚ × List String)
    (h : ∀ k ∈ ks, subB k.data dl = false) : ks.foldl (nrStep dl) acc = acc := by
  induction ks generalizing acc with
  | nil => rfl
  | cons k ks ih =>
    have hk : subB k.data dl = false := h k (by simp)
    have hstep : nrStep dl acc k = acc := by simp [nrStep, hk]
    rw [List.foldl_cons, hstep]
    exact ih acc (fun k' hk' => h k' (by simp [hk']))

/-- A keyword fold of the cofactor scorer leaves its accumulator unchanged
when no keyword matches. -/
theorem foldl_cofStep_of_no_match (label : String) (dl : List Char) (ks : List String)
    (acc : ℚ × List String) (h : ∀ k ∈ ks, subB k.data dl = false) :
    ks.foldl (cofStep label dl) acc = acc := by
  induction ks generalizing acc with
  | nil => rfl
  | cons k ks ih =>
    have hk : subB k.data dl = false := h k (by simp)
    have hstep : cofStep label dl acc k = acc := by simp [cofStep, hk]
    rw [List.foldl_cons, hstep]
    exact ih acc (fun k' hk' => h k' (by simp [hk']))

/-- C7 counterexample: the empty description contains no keyword of either
cofactor keyword list, yet on the sequence "LAALL" the cofactor scorer
returns score 0.5 with a non-empty reasons list (the motif branch fires
without any keyword). -/
theorem no_keyword_motif_cex :
    (∀ k ∈ coactivator_keywords, subB k.data (lower []) = false) ∧
    (∀ k ∈ corepressor_keywords, subB k.data (lower []) = false) ∧
    (score_cofactor [] "LAALL".data).1 = 1/2 ∧
    (score_cofactor [] "LAALL".data).2.2 ≠ [] := by
  with_unfolding_all decide

/-- C7 (amended): a description without any keyword of the
nuclear-receptor list gives score 0 with no reasons from the
nuclear-receptor scorer; a description without any keyword of the two
cofactor lists gives score 0, subtype "unknown" and no reasons from the
cofactor scorer, provided additionally that the sequence guard does not
fire (empty sequence or no L..LL motif). -/
theorem no_keyword_zero_scores (desc seq : List Char) :
    ((∀ k ∈ nr_keywords, subB k.data (lower desc) = false) →
      score_nuclear_receptor desc = (0, [])) ∧
    ((∀ k ∈ coactivator_keywords, subB k.data (lower desc) = false) →
      (∀ k ∈ corepressor_keywords, subB k.data (lower desc) = false) →
      motifHit seq = false →
      score_cofactor desc seq = (0, "unknown", [])) := by
  constructor
  · intro h
    unfold score_nuclear_receptor
    rw [foldl_nrStep_of_no_match (lower desc) nr_keywords (0, []) h]
    norm_num
  · intro h1 h2 hm
    have e1 : coactPart (lower desc) = (0, []) :=
      foldl_cofStep_of_no_match "Coactivator keyword: " (lower desc) coactivator_keywords (0, []) h1
    have e2 : corepPart (lower desc) = (0, []) :=
      foldl_cofStep_of_no_match "Corepressor keyword: " (lower desc) corepressor_keywords (0, []) h2
    unfold score_cofactor coactRunning corepRunning cofactorReasons
    rw [e1, e2]
    simp [hm]

/-- Witness for C7 at the keyword-free description "xyz" and the empty
sequence. -/
theorem no_keyword_zero_scores_wit :
    score_nuclear_receptor "xyz".data = (0, []) ∧
    score_cofactor "xyz".data [] = (0, "unknown", []) :=
  ⟨(no_keyword_zero_scores "xyz".data []).1 (by decide),
   (no_keyword_zero_scores "xyz".data []).2 (by decide) (by decide) (by decide)⟩

/-- One loop iteration either keeps the best pair or, off the diagonal,
installs the candidate built from the scanned pair. -/
theorem stepPair_cases (b : BestPair) (pq : (Nat × ChainInfo) × (Nat × ChainInfo)) :
    stepPair b pq = b ∨ (pq.1.1 ≠ pq.2.1 ∧ stepPair b pq = candidateOf pq) := by
  unfold stepPair
  by_cases h1 : pq.1.1 = pq.2.1
  · simp [h1]
  · by_cases h2 : b.confidence < pairConfidence pq
    · right; exact ⟨h1, by simp [h1, h2]⟩
    · left; simp [h1, h2]

/-- Both components of a scanned pair come from the enumerated chain list. -/
theorem mem_pairList {chains : List ChainInfo} {pq : (Nat × ChainInfo) × (Nat × ChainInfo)}
    (h : pq ∈ pairList chains) : pq.1 ∈ chains.enum ∧ pq.2 ∈ chains.enum := by
  unfold pairList at h
  simp only [List.mem_flatMap, List.mem_map] at h
  obtain ⟨p, hp, q, hq, hpq⟩ := h
  rw [← hpq]
  exact ⟨hp, hq⟩

/-- Invariants preserved by every iteration hold of the final fold value. -/
theorem foldl_stepPair_inv (Q : BestPair → Prop)
    (ps : List ((Nat × ChainInfo) × (Nat × ChainInfo))) (b : BestPair) (hb : Q b)
    (hstep : ∀ b' pq, pq ∈ ps → Q b' → Q (stepPair b' pq)) :
    Q (ps.foldl stepPair b) := by
  induction ps generalizing b with
  | nil => exact hb
  | cons p ps ih =>
    exact ih (stepPair b p) (hstep b p (by simp) hb)
      (fun b' pq hpq hq => hstep b' pq (by simp [hpq]) hq)

/-- The final best pair is either the initial all-null value or the
candidate of some off-diagonal scanned pair. -/
theorem bestPair_cases (chains : List ChainInfo) :
    bestPairOf chains = initBest ∨
      ∃ pq ∈ pairList chains, pq.1.1 ≠ pq.2.1 ∧ bestPairOf chains = candidateOf pq := by
  unfold bestPairOf
  refine foldl_stepPair_inv
    (fun b => b = initBest ∨ ∃ pq ∈ pairList chains, pq.1.1 ≠ pq.2.1 ∧ b = candidateOf pq)
    (pairList chains) initBest (Or.inl rfl) ?_
  intro b' pq hpq hq
  rcases stepPair_cases b' pq with h | ⟨hne, h⟩
  · rw [h]; exact hq
  · exact Or.inr ⟨pq, hpq, hne, h⟩

/-- C2: whenever the classification verdict is true, the record was
present, and the reported receptor and cofactor chain ids come from two
chains of the record sitting at distinct positions of the extracted chain
list. -/
theorem complex_implies_distinct_chains (pdb : String) (data : Option PDBData)
    (h : (classify_complex pdb data).is_nr_cofactor_complex = true) :
    ∃ d, data = some d ∧
      ∃ pq : (Nat × ChainInfo) × (Nat × ChainInfo),
        pq.1 ∈ (extract_chain_info d).enum ∧ pq.2 ∈ (extract_chain_info d).enum ∧
        pq.1.1 ≠ pq.2.1 ∧
        (classify_complex pdb data).receptor_chain = some pq.1.2.chain_id ∧
        (classify_complex pdb data).cofactor_chain = some pq.2.2.chain_id := by
  match data with
  | none => simp [classify_complex] at h
  | some d =>
    by_cases h1 : d.truthy = true
    case neg =>
      have h1' : d.truthy = false := by revert h1; cases d.truthy <;> simp
      rw [classify_unavailable_of_falsy pdb d h1'] at h
      simp at h
    case pos =>
      by_cases h2 : (extract_chain_info d).length < 2
      · rw [classify_insufficient pdb d h1 h2] at h
        simp at h
      · have hth := (classify_main_flag pdb d h1 h2).mp h
        rcases bestPair_cases (extract_chain_info d) with hc | ⟨pq, hmem, hne, hc⟩
        · exfalso
          have := hth.1
          rw [hc] at this
          norm_num [initBest] at this
        · refine ⟨d, rfl, pq, (mem_pairList hmem).1, (mem_pairList hmem).2, hne, ?_, ?_⟩
          · rw [classify_main_receptor pdb d h1 h2, hc]; rfl
          · rw [classify_main_cofactor pdb d h1 h2, hc]; rfl

/-- Witness for C2 at a concrete record classified as a complex. -/
theorem complex_implies_distinct_chains_wit :
    ∃ d, some exDataComplex = some d ∧
      ∃ pq : (Nat × ChainInfo) × (Nat × ChainInfo),
        pq.1 ∈ (extract_chain_info d).enum ∧ pq.2 ∈ (extract_chain_info d).enum ∧
        pq.1.1 ≠ pq.2.1 ∧
        (classify_complex "X" (some exDataComplex)).receptor_chain = some pq.1.2.chain_id ∧
        (classify_complex "X" (some exDataComplex)).cofactor_chain = some pq.2.2.chain_id :=
  complex_implies_distinct_chains "X" (some exDataComplex) (by with_unfolding_all decide)

/-- The tracked best confidence never decreases across one iteration. -/
theorem stepPair_conf_mono (b : BestPair) (pq : (Nat × ChainInfo) × (Nat × ChainInfo)) :
    b.confidence ≤ (stepPair b pq).confidence := by
  unfold stepPair
  by_cases h1 : pq.1.1 = pq.2.1
  · simp [h1]
  · by_cases h2 : b.confidence < pairConfidence pq
    · simpa [h1, h2, candidateOf] using le_of_lt h2
    · simp [h1, h2]

/-- The tracked best confidence never decreases across the whole fold. -/
theorem foldl_conf_mono (ps : List ((Nat × ChainInfo) × (Nat × ChainInfo))) (b : BestPair) :
    b.confidence ≤ (ps.foldl stepPair b).confidence := by
  induction ps generalizing b with
  | nil => exact le_refl _
  | cons p ps ih => exact le_trans (stepPair_conf_mono b p) (ih (stepPair b p))

/-- After scanning an off-diagonal pair, the tracked best confidence is at
least that pairs confidence. -/
theorem stepPair_conf_ge (b : BestPair) (pq : (Nat × ChainInfo) × (Nat × ChainInfo))
    (h : pq.1.1 ≠ pq.2.1) : pairConfidence pq ≤ (stepPair b pq).confidence := by
  unfold stepPair
  by_cases h2 : b.confidence < pairConfidence pq
  · simp [h, h2, candidateOf]
  · simpa [h, h2] using le_of_not_lt h2

/-- The final best confidence dominates the confidence of every
off-diagonal pair in the scanned list. -/
theorem foldl_conf_ge (ps : List ((Nat × ChainInfo) × (Nat × ChainInfo))) (b : BestPair)
    (pq : (Nat × ChainInfo) × (Nat × ChainInfo)) (hmem : pq ∈ ps) (h : pq.1.1 ≠ pq.2.1) :
    pairConfidence pq ≤ (ps.foldl stepPair b).confidence := by
  induction ps generalizing b with
  | nil => simp at hmem
  | cons p ps ih =>
    rcases List.mem_cons.mp hmem with heq | hmem'
    · rw [List.foldl_cons]
      exact le_trans (heq ▸ stepPair_conf_ge b pq h) (foldl_conf_mono ps (stepPair b p))
    · exact ih (stepPair b p) hmem'

/-- One iteration preserves the invariant that a null receptor forces a
zero tracked confidence. -/
theorem stepPair_none_zero (b : BestPair) (pq : (Nat × ChainInfo) × (Nat × ChainInfo))
    (hb : b.receptor = none → b.confidence = 0) :
    (stepPair b pq).receptor = none → (stepPair b pq).confidence = 0 := by
  unfold stepPair
  by_cases h1 : pq.1.1 = pq.2.1
  · simpa [h1] using hb
  · by_cases h2 : b.confidence < pairConfidence pq
    · intro hc
      simp [h1, h2, candidateOf] at hc
    · simpa [h1, h2] using hb

/-- Over the whole fold, a null receptor forces a zero tracked confidence. -/
theorem foldl_none_zero (ps : List ((Nat × ChainInfo) × (Nat × ChainInfo))) (b : BestPair)
    (hb : b.receptor = none → b.confidence = 0) :
    (ps.foldl stepPair b).receptor = none → (ps.foldl stepPair b).confidence = 0 := by
  induction ps generalizing b with
  | nil => exact hb
  | cons p ps ih => exact ih (stepPair b p) (stepPair_none_zero b p hb)

/-- A pair whose confidence is not strictly positive never replaces the
initial all-null best value. -/
theorem stepPair_initBest (pq : (Nat × ChainInfo) × (Nat × ChainInfo))
    (h : pq.1.1 ≠ pq.2.1 → pairConfidence pq ≤ 0) : stepPair initBest pq = initBest := by
  unfold stepPair
  by_cases h1 : pq.1.1 = pq.2.1
  · simp [h1]
  · have hle := h h1
    have hnl : ¬ initBest.confidence < pairConfidence pq := by
      simp only [initBest]
      exact not_lt.mpr hle
    simp [h1, hnl]

/-- If every off-diagonal pair has non-positive confidence, the whole fold
returns the initial all-null value. -/
theorem foldl_initBest (ps : List ((Nat × ChainInfo) × (Nat × ChainInfo)))
    (h : ∀ pq ∈ ps, pq.1.1 ≠ pq.2.1 → pairConfidence pq ≤ 0) :
    ps.foldl stepPair initBest = initBest := by
  induction ps with
  | nil => rfl
  | cons p ps ih =>
    rw [List.foldl_cons, stepPair_initBest p (h p (by simp))]
    exact ih (fun pq hpq hne => h pq (by simp [hpq]) hne)

/-- C8 (amended): the candidate tracking starts at confidence 0; a scanned
pair replaces the best candidate only when its confidence strictly exceeds
the current best one (so ties and non-positive confidences keep the
earlier value, and the very first valid pair becomes the best only if its
confidence is strictly positive); and the search ends with a null
receptor exactly when every valid ordered pair has confidence at most 0. -/
theorem pairing_best_null_iff (chains : List ChainInfo) :
    initBest.confidence = 0 ∧
    (∀ (b : BestPair) (pq : (Nat × ChainInfo) × (Nat × ChainInfo)),
      pq.1.1 ≠ pq.2.1 → pairConfidence pq ≤ b.confidence → stepPair b pq = b) ∧
    ((bestPairOf chains).receptor = none ↔
      ∀ pq ∈ validPairs chains, pairConfidence pq ≤ 0) := by
  refine ⟨rfl, ?_, ?_, ?_⟩
  · intro b pq hne hle
    unfold stepPair
    simp [hne, not_lt.mpr hle]
  · intro hnone pq hpq
    have hmem : pq ∈ pairList chains ∧ pq.1.1 ≠ pq.2.1 := by
      unfold validPairs at hpq
      simpa using List.mem_filter.mp hpq
    have hz : (bestPairOf chains).confidence = 0 :=
      foldl_none_zero (pairList chains) initBest (fun _ => rfl) hnone
    calc pairConfidence pq
        ≤ (bestPairOf chains).confidence := foldl_conf_ge (pairList chains) initBest pq hmem.1 hmem.2
      _ = 0 := hz
  · intro hall
    have hinit : bestPairOf chains = initBest := by
      unfold bestPairOf
      refine foldl_initBest (pairList chains) ?_
      intro pq hpq hne
      refine hall pq ?_
      unfold validPairs
      exact List.mem_filter.mpr ⟨hpq, by simpa using hne⟩
    rw [hinit]
    rfl

/-- C8 counterexample: a record with two evidence-free chains has valid
ordered pairs (the scan visits them), yet no pair ever becomes the best
candidate: the search output keeps the null receptor, so the first valid
pair did not become the initial best. -/
theorem first_pair_not_best_cex :
    validPairs (extract_chain_info exDataNoKw) ≠ [] ∧
    (bestPairOf (extract_chain_info exDataNoKw)).receptor = none := by
  with_unfolding_all decide

/-- Witness for C8 discharging the iff at a concrete chain list. -/
theorem pairing_best_null_iff_wit :
    (bestPairOf (extract_chain_info exDataNoKw)).receptor = none :=
  (pairing_best_null_iff (extract_chain_info exDataNoKw)).2.2.mpr
    (by with_unfolding_all decide)

end NRClassifier
